import Mathlib

/- Verification development for the AeroSocket WebSocket engine.
   The definitions below are shallow embeddings of the Rust sources:
   bytes are Nat values below 256, byte buffers are List Nat, and the
   mutable buffer arguments of the Rust functions become explicit
   input/output values. -/

set_option maxRecDepth 4096

namespace Aero

/-- Big-endian 2-byte encoding of a Nat, mirroring put_u16 (truncating like a u16 cast). -/
def toBE16 (n : Nat) : List Nat := [n / 256 % 256, n % 256]

/-- Big-endian 8-byte encoding of a Nat, mirroring put_u64 (truncating like a u64 cast). -/
def toBE64 (n : Nat) : List Nat :=
  [n / 2 ^ 56 % 256, n / 2 ^ 48 % 256, n / 2 ^ 40 % 256, n / 2 ^ 32 % 256,
   n / 2 ^ 24 % 256, n / 2 ^ 16 % 256, n / 256 % 256, n % 256]

/-- Big-endian 4-byte encoding of a 32-bit word. -/
def toBE32 (n : Nat) : List Nat := [n / 2 ^ 24 % 256, n / 2 ^ 16 % 256, n / 256 % 256, n % 256]

/-- Big-endian decoding of a byte list, mirroring get_u16 and get_u64. -/
def fromBE (l : List Nat) : Nat := l.foldl (fun acc b => acc * 256 + b) 0

/-- WebSocket opcodes; embeds the Opcode enum of aerosocket-core protocol.rs. -/
inductive Opcode
  | continuation
  | text
  | binary
  | reserved3
  | reserved4
  | reserved5
  | reserved6
  | reserved7
  | close
  | ping
  | pong
  | reservedB
  | reservedC
  | reservedD
  | reservedE
  | reservedF
deriving DecidableEq, Repr

/-- Embeds Opcode::from (protocol.rs lines 45-55): only the six known codes decode. -/
def Opcode.fromByte (value : Nat) : Option Opcode :=
  match value with
  | 0x0 => some Opcode.continuation
  | 0x1 => some Opcode.text
  | 0x2 => some Opcode.binary
  | 0x8 => some Opcode.close
  | 0x9 => some Opcode.ping
  | 0xA => some Opcode.pong
  | _ => none

/-- Embeds Opcode::value (the discriminant of each variant). -/
def Opcode.value : Opcode → Nat
  | .continuation => 0x0
  | .text => 0x1
  | .binary => 0x2
  | .reserved3 => 0x3
  | .reserved4 => 0x4
  | .reserved5 => 0x5
  | .reserved6 => 0x6
  | .reserved7 => 0x7
  | .close => 0x8
  | .ping => 0x9
  | .pong => 0xA
  | .reservedB => 0xB
  | .reservedC => 0xC
  | .reservedD => 0xD
  | .reservedE => 0xE
  | .reservedF => 0xF

/-- Embeds Opcode::is_control. -/
def Opcode.isControl : Opcode → Bool
  | .close | .ping | .pong => true
  | _ => false

/-- Embeds Opcode::is_data. -/
def Opcode.isData : Opcode → Bool
  | .text | .binary | .continuation => true
  | _ => false

/-- Embeds the Frame struct of aerosocket-core frame.rs; the rsv array becomes
three separate fields and Bytes becomes List Nat. -/
structure Frame where
  fin : Bool
  rsv1 : Bool
  rsv2 : Bool
  rsv3 : Bool
  opcode : Opcode
  masked : Bool
  mask : Option (List Nat)
  payload : List Nat
deriving DecidableEq, Repr

/-- Embeds the frame error variants relevant to Frame::parse (error.rs FrameError). -/
inductive FrameError
  | insufficientData (needed got : Nat)
  | invalidOpcode (value : Nat)
  | fragmentedControlFrame
  | reservedBitsSet
deriving DecidableEq, Repr

deriving instance DecidableEq for Except

/-- True exactly on the InsufficientData variant. -/
def FrameError.isInsufficientData : FrameError → Bool
  | .insufficientData _ _ => true
  | _ => false

/-- Embeds mask_bytes (frame.rs lines 343-349): XOR each byte with mask[i mod 4]. -/
def maskBytes (data : List Nat) (mask : List Nat) : List Nat :=
  data.enum.map (fun p => p.2 ^^^ mask.getD (p.1 % 4) 0)

/-- Embeds Frame::write_to (frame.rs lines 139-169). -/
def Frame.writeTo (f : Frame) : List Nat :=
  let firstByte := ((cond f.fin 1 0) <<< 7) ||| ((cond f.rsv1 1 0) <<< 6) |||
    ((cond f.rsv2 1 0) <<< 5) ||| ((cond f.rsv3 1 0) <<< 4) ||| f.opcode.value
  let maskBit := (cond f.masked 1 0) <<< 7
  let lenBytes :=
    if f.payload.length < 126 then [maskBit ||| f.payload.length]
    else if f.payload.length ≤ 65535 then (maskBit ||| 126) :: toBE16 f.payload.length
    else (maskBit ||| 127) :: toBE64 f.payload.length
  let maskKey := match f.mask with
    | some m => m
    | none => []
  firstByte :: (lenBytes ++ maskKey ++ f.payload)

/-- Embeds the tail of Frame::parse from the payload read onwards (frame.rs
lines 234-287): payload extraction, unmasking, buffer advance and the step-5
validations actually present in the source. The returned list is the state of
the mutable input buffer when the function returns. -/
def Frame.finishParse (buf : List Nat) (compressionEnabled : Bool)
    (fin rsv1 rsv2 rsv3 : Bool) (opcode : Opcode) (masked : Bool)
    (mask : Option (List Nat)) (payloadLen pos : Nat) :
    Except FrameError Frame × List Nat :=
  if buf.length < pos + payloadLen then
    (Except.error (FrameError.insufficientData (pos + payloadLen) buf.length), buf)
  else
    let rawPayload := (buf.drop pos).take payloadLen
    let payload := match mask with
      | some m => maskBytes rawPayload m
      | none => rawPayload
    let rest := buf.drop (pos + payloadLen)
    if opcode.isControl && !fin then
      (Except.error FrameError.fragmentedControlFrame, rest)
    else if (rsv1 && !(compressionEnabled && opcode.isData)) || rsv2 || rsv3 then
      (Except.error FrameError.reservedBitsSet, rest)
    else
      (Except.ok { fin := fin, rsv1 := rsv1, rsv2 := rsv2, rsv3 := rsv3,
                   opcode := opcode, masked := masked, mask := mask,
                   payload := payload }, rest)

/-- Embeds the masking-key step of Frame::parse (frame.rs lines 218-232):
when the mask bit is set the source first checks the combined
header+mask+payload length, then reads the four key bytes. -/
def Frame.parseAfterLen (buf : List Nat) (compressionEnabled : Bool)
    (fin rsv1 rsv2 rsv3 : Bool) (opcode : Opcode) (masked : Bool)
    (payloadLen pos : Nat) : Except FrameError Frame × List Nat :=
  if masked then
    if buf.length < pos + 4 + payloadLen then
      (Except.error (FrameError.insufficientData (pos + 4 + payloadLen) buf.length), buf)
    else
      Frame.finishParse buf compressionEnabled fin rsv1 rsv2 rsv3 opcode masked
        (some ((buf.drop pos).take 4)) payloadLen (pos + 4)
  else
    Frame.finishParse buf compressionEnabled fin rsv1 rsv2 rsv3 opcode masked
      none payloadLen pos

/-- Embeds Frame::parse (frame.rs lines 172-287). The compression feature is
not compiled in this embedding, so the decompression block is absent, exactly
as when the crate is built without the compression feature. The returned list
is the state of the mutable input buffer when the function returns. -/
def Frame.parse (buf : List Nat) (compressionEnabled : Bool) :
    Except FrameError Frame × List Nat :=
  if buf.length < 2 then
    (Except.error (FrameError.insufficientData 2 buf.length), buf)
  else
    let firstByte := buf.getD 0 0
    let fin := (firstByte &&& 128) != 0
    let rsv1 := (firstByte &&& 64) != 0
    let rsv2 := (firstByte &&& 32) != 0
    let rsv3 := (firstByte &&& 16) != 0
    match Opcode.fromByte (firstByte &&& 15) with
    | none => (Except.error (FrameError.invalidOpcode (firstByte &&& 15)), buf)
    | some opcode =>
      let secondByte := buf.getD 1 0
      let masked := (secondByte &&& 128) != 0
      let len7 := secondByte &&& 127
      if len7 = 126 then
        if buf.length < 4 then
          (Except.error (FrameError.insufficientData 4 buf.length), buf)
        else
          Frame.parseAfterLen buf compressionEnabled fin rsv1 rsv2 rsv3 opcode masked
            (fromBE ((buf.drop 2).take 2)) 4
      else if len7 = 127 then
        if buf.length < 10 then
          (Except.error (FrameError.insufficientData 10 buf.length), buf)
        else
          Frame.parseAfterLen buf compressionEnabled fin rsv1 rsv2 rsv3 opcode masked
            (fromBE ((buf.drop 2).take 8)) 10
      else
        Frame.parseAfterLen buf compressionEnabled fin rsv1 rsv2 rsv3 opcode masked len7 2

/-- Embeds the FrameParser struct (frame.rs lines 352-360). -/
structure FrameParser where
  buffer : List Nat
  expectedSize : Option Nat
  compressionEnabled : Bool
deriving DecidableEq, Repr

/-- Embeds FrameParser::try_parse_frame (frame.rs lines 411-431): the buffer is
cloned, Frame::parse runs on the clone, and on success the consumed prefix is
dropped; on InsufficientData nothing changes; on any other error the whole
buffer is cleared. -/
def FrameParser.tryParseFrame (ps : FrameParser) :
    Option (Except FrameError Frame) × FrameParser :=
  let r := Frame.parse ps.buffer ps.compressionEnabled
  match r.1 with
  | Except.ok f =>
      (some (Except.ok f),
       { ps with buffer := ps.buffer.drop (ps.buffer.length - r.2.length) })
  | Except.error e =>
      if e.isInsufficientData then
        (none, ps)
      else
        (some (Except.error e), { ps with buffer := [] })

/-- Legal frame predicate, the data-model invariants of section 3 of the spec
restricted to an un-negotiated connection: known opcode, mask present exactly
when the masked flag is set and then four bytes long, control frames final
with payload at most 125 bytes, the three reserved bits clear, payload and
mask made of bytes, and a payload that fits the wire length field. -/
def legalFrame (f : Frame) : Bool :=
  (Opcode.fromByte f.opcode.value == some f.opcode) &&
  (f.masked == f.mask.isSome) &&
  (match f.mask with
   | some m => m.length == 4 && m.all (· < 256)
   | none => true) &&
  (!f.opcode.isControl || (f.fin && decide (f.payload.length ≤ 125))) &&
  (!f.rsv1 && !f.rsv2 && !f.rsv3) &&
  f.payload.all (· < 256) &&
  decide (f.payload.length < 2 ^ 64)

/-- Payload of a frame as Frame::parse recovers it from the wire image written
by Frame::write_to: write_to emits the stored payload verbatim, and parse
applies the masking XOR once when the mask bit is set. -/
def Frame.parsedPayload (f : Frame) : List Nat :=
  match f.mask with
  | some m => maskBytes f.payload m
  | none => f.payload

/-- Left rotation of a 32-bit word, used by the SHA-1 compression function. -/
def rotl32 (x s : Nat) : Nat := ((x <<< s) ||| (x >>> (32 - s))) % 4294967296

/-- SHA-1 padding: the 0x80 byte, zero fill to 56 mod 64, and the 64-bit
big-endian bit length. -/
def sha1Pad (msg : List Nat) : List Nat :=
  let zeros := (64 - (msg.length + 9) % 64) % 64
  msg ++ [128] ++ List.replicate zeros 0 ++ toBE64 (msg.length * 8)

/-- Group a byte list into big-endian 32-bit words. -/
def toWords : List Nat → List Nat
  | a :: b :: c :: d :: rest => (a * 2 ^ 24 + b * 2 ^ 16 + c * 256 + d) :: toWords rest
  | _ => []

/-- Split a byte list into 64-byte blocks; the fuel argument bounds the recursion. -/
def chunk64 : Nat → List Nat → List (List Nat)
  | 0, _ => []
  | _, [] => []
  | fuel + 1, l => l.take 64 :: chunk64 fuel (l.drop 64)

/-- Message schedule of one SHA-1 block: the 16 input words extended to 80. -/
def sha1Schedule (w16 : List Nat) : List Nat :=
  (List.range 80).foldl
    (fun w i =>
      if i < 16 then w ++ [w16.getD i 0]
      else w ++ [rotl32 ((w.getD (i - 3) 0) ^^^ (w.getD (i - 8) 0) ^^^
                         (w.getD (i - 14) 0) ^^^ (w.getD (i - 16) 0)) 1])
    []

/-- Round function of SHA-1. -/
def sha1F (i b c d : Nat) : Nat :=
  if i < 20 then (b &&& c) ||| ((b ^^^ 4294967295) &&& d)
  else if i < 40 then b ^^^ c ^^^ d
  else if i < 60 then (b &&& c) ||| (b &&& d) ||| (c &&& d)
  else b ^^^ c ^^^ d

/-- Round constants of SHA-1. -/
def sha1K (i : Nat) : Nat :=
  if i < 20 then 0x5A827999
  else if i < 40 then 0x6ED9EBA1
  else if i < 60 then 0x8F1BBCDC
  else 0xCA62C1D6

/-- Running state of SHA-1: the five 32-bit chaining words. -/
structure Sha1State where
  a : Nat
  b : Nat
  c : Nat
  d : Nat
  e : Nat
deriving DecidableEq, Repr

/-- One SHA-1 compression step over a 64-byte block. -/
def sha1Compress (h : Sha1State) (block : List Nat) : Sha1State :=
  let w := sha1Schedule (toWords block)
  let fin := (List.range 80).foldl
    (fun (st : Sha1State) i =>
      let temp := (rotl32 st.a 5 + sha1F i st.b st.c st.d + st.e + sha1K i + w.getD i 0) %
        4294967296
      { a := temp, b := st.a, c := rotl32 st.b 30, d := st.c, e := st.d })
    h
  { a := (h.a + fin.a) % 4294967296, b := (h.b + fin.b) % 4294967296,
    c := (h.c + fin.c) % 4294967296, d := (h.d + fin.d) % 4294967296,
    e := (h.e + fin.e) % 4294967296 }

/-- SHA-1 of a byte list, as computed by the sha1 crate the handshake uses. -/
def sha1 (msg : List Nat) : List Nat :=
  let padded := sha1Pad msg
  let final := (chunk64 padded.length padded).foldl sha1Compress
    { a := 0x67452301, b := 0xEFCDAB89, c := 0x98BADCFE, d := 0x10325476, e := 0xC3D2E1F0 }
  toBE32 final.a ++ toBE32 final.b ++ toBE32 final.c ++ toBE32 final.d ++ toBE32 final.e

/-- Standard base64 alphabet used by base64::engine::general_purpose::STANDARD. -/
def base64Table : List Char :=
  "ABCDEFGHIJKLMNOPQRSTUVWXYZabcdefghijklmnopqrstuvwxyz0123456789+/".toList

/-- Standard base64 encoding with padding, as performed by the base64 crate. -/
def base64Encode : List Nat → List Char
  | [] => []
  | [a] =>
      [base64Table.getD (a >>> 2) 'A', base64Table.getD ((a &&& 3) <<< 4) 'A', '=', '=']
  | [a, b] =>
      [base64Table.getD (a >>> 2) 'A', base64Table.getD (((a &&& 3) <<< 4) ||| (b >>> 4)) 'A',
       base64Table.getD ((b &&& 15) <<< 2) 'A', '=']
  | a :: b :: c :: rest =>
      base64Table.getD (a >>> 2) 'A' ::
      base64Table.getD (((a &&& 3) <<< 4) ||| (b >>> 4)) 'A' ::
      base64Table.getD (((b &&& 15) <<< 2) ||| (c >>> 6)) 'A' ::
      base64Table.getD (c &&& 63) 'A' ::
      base64Encode rest

/-- Byte view of an ASCII string, as bytes of the corresponding Rust str. -/
def strBytes (s : String) : List Nat := s.toList.map Char.toNat

/-- The RFC 6455 magic GUID (protocol.rs WEBSOCKET_MAGIC). -/
def WEBSOCKET_MAGIC : String := "258EAFA5-E914-47DA-95CA-C5AB0DC85B11"

/-- Embeds compute_accept_key (handshake.rs lines 80-84): concatenate the
client key with the magic GUID, hash with SHA-1, base64 encode. -/
def compute_accept_key (clientKey : String) : String :=
  String.mk (base64Encode (sha1 (strBytes clientKey ++ strBytes WEBSOCKET_MAGIC)))

/-- Continuation byte test for UTF-8: 0x80 to 0xBF. -/
def isCont (b : Nat) : Bool := 128 ≤ b && b ≤ 191

/-- UTF-8 validity of a byte list, the check performed by String::from_utf8:
RFC 3629 sequences with the usual overlong, surrogate and range exclusions. -/
def validUtf8 : List Nat → Bool
  | [] => true
  | b :: rest =>
    if b < 128 then validUtf8 rest
    else if 194 ≤ b && b ≤ 223 then
      match rest with
      | c1 :: r => isCont c1 && validUtf8 r
      | [] => false
    else if b == 224 then
      match rest with
      | c1 :: c2 :: r => (160 ≤ c1 && c1 ≤ 191) && isCont c2 && validUtf8 r
      | _ => false
    else if (225 ≤ b && b ≤ 236) || b == 238 || b == 239 then
      match rest with
      | c1 :: c2 :: r => isCont c1 && isCont c2 && validUtf8 r
      | _ => false
    else if b == 237 then
      match rest with
      | c1 :: c2 :: r => (128 ≤ c1 && c1 ≤ 159) && isCont c2 && validUtf8 r
      | _ => false
    else if b == 240 then
      match rest with
      | c1 :: c2 :: c3 :: r => (144 ≤ c1 && c1 ≤ 191) && isCont c2 && isCont c3 && validUtf8 r
      | _ => false
    else if 241 ≤ b && b ≤ 243 then
      match rest with
      | c1 :: c2 :: c3 :: r => isCont c1 && isCont c2 && isCont c3 && validUtf8 r
      | _ => false
    else if b == 244 then
      match rest with
      | c1 :: c2 :: c3 :: r => (128 ≤ c1 && c1 ≤ 143) && isCont c2 && isCont c3 && validUtf8 r
      | _ => false
    else false

/-- UTF-8 bytes of the replacement character U+FFFD. -/
def replacementBytes : List Nat := [239, 191, 189]

/-- Lossy UTF-8 decoding as bytes, the behavior of String::from_utf8_lossy:
valid sequences are copied through and each maximal invalid subpart is
replaced by one U+FFFD. -/
def utf8Lossy : List Nat → List Nat
  | [] => []
  | b :: rest =>
    if b < 128 then b :: utf8Lossy rest
    else if 194 ≤ b && b ≤ 223 then
      match rest with
      | c1 :: r =>
          if isCont c1 then b :: c1 :: utf8Lossy r
          else replacementBytes ++ utf8Lossy (c1 :: r)
      | [] => replacementBytes
    else if b == 224 then
      match rest with
      | c1 :: r =>
          if 160 ≤ c1 && c1 ≤ 191 then
            match r with
            | c2 :: r2 =>
                if isCont c2 then b :: c1 :: c2 :: utf8Lossy r2
                else replacementBytes ++ utf8Lossy (c2 :: r2)
            | [] => replacementBytes
          else replacementBytes ++ utf8Lossy (c1 :: r)
      | [] => replacementBytes
    else if (225 ≤ b && b ≤ 236) || b == 238 || b == 239 then
      match rest with
      | c1 :: r =>
          if isCont c1 then
            match r with
            | c2 :: r2 =>
                if isCont c2 then b :: c1 :: c2 :: utf8Lossy r2
                else replacementBytes ++ utf8Lossy (c2 :: r2)
            | [] => replacementBytes
          else replacementBytes ++ utf8Lossy (c1 :: r)
      | [] => replacementBytes
    else if b == 237 then
      match rest with
      | c1 :: r =>
          if 128 ≤ c1 && c1 ≤ 159 then
            match r with
            | c2 :: r2 =>
                if isCont c2 then b :: c1 :: c2 :: utf8Lossy r2
                else replacementBytes ++ utf8Lossy (c2 :: r2)
            | [] => replacementBytes
          else replacementBytes ++ utf8Lossy (c1 :: r)
      | [] => replacementBytes
    else if b == 240 then
      match rest with
      | c1 :: r =>
          if 144 ≤ c1 && c1 ≤ 191 then
            match r with
            | c2 :: r2 =>
                if isCont c2 then
                  match r2 with
                  | c3 :: r3 =>
                      if isCont c3 then b :: c1 :: c2 :: c3 :: utf8Lossy r3
                      else replacementBytes ++ utf8Lossy (c3 :: r3)
                  | [] => replacementBytes
                else replacementBytes ++ utf8Lossy (c2 :: r2)
            | [] => replacementBytes
          else replacementBytes ++ utf8Lossy (c1 :: r)
      | [] => replacementBytes
    else if 241 ≤ b && b ≤ 243 then
      match rest with
      | c1 :: r =>
          if isCont c1 then
            match r with
            | c2 :: r2 =>
                if isCont c2 then
                  match r2 with
                  | c3 :: r3 =>
                      if isCont c3 then b :: c1 :: c2 :: c3 :: utf8Lossy r3
                      else replacementBytes ++ utf8Lossy (c3 :: r3)
                  | [] => replacementBytes
                else replacementBytes ++ utf8Lossy (c2 :: r2)
            | [] => replacementBytes
          else replacementBytes ++ utf8Lossy (c1 :: r)
      | [] => replacementBytes
    else if b == 244 then
      match rest with
      | c1 :: r =>
          if 128 ≤ c1 && c1 ≤ 143 then
            match r with
            | c2 :: r2 =>
                if isCont c2 then
                  match r2 with
                  | c3 :: r3 =>
                      if isCont c3 then b :: c1 :: c2 :: c3 :: utf8Lossy r3
                      else replacementBytes ++ utf8Lossy (c3 :: r3)
                  | [] => replacementBytes
                else replacementBytes ++ utf8Lossy (c2 :: r2)
            | [] => replacementBytes
          else replacementBytes ++ utf8Lossy (c1 :: r)
      | [] => replacementBytes
    else replacementBytes ++ utf8Lossy rest

/-- Embeds the protocol error variants used by the message assembler
(error.rs ProtocolError). -/
inductive ProtocolError
  | invalidFrame (msg : String)
deriving DecidableEq, Repr

/-- Embeds the core Error enum variants reachable from the message paths
(error.rs): frame errors, protocol errors, invalid UTF-8, and the catch-all
Other used by the server connection. -/
inductive Error
  | frame (e : FrameError)
  | protocol (e : ProtocolError)
  | invalidUtf8
  | other (msg : String)
deriving DecidableEq, Repr

/-- Embeds the Message enum of message.rs, with text and reason values kept as
the UTF-8 bytes of the corresponding Rust String. -/
inductive Message
  | text (bytes : List Nat)
  | binary (bytes : List Nat)
  | ping (bytes : List Nat)
  | pong (bytes : List Nat)
  | close (code : Option Nat) (reason : List Nat)
deriving DecidableEq, Repr

/-- Embeds the MessageAssembler struct (message.rs lines 339-347). -/
structure MessageAssembler where
  buffer : List Nat
  opcode : Option Opcode
  assembling : Bool
deriving DecidableEq, Repr

/-- Embeds MessageAssembler::parse_close_payload (message.rs lines 415-428):
payloads under two bytes give no code and no reason; otherwise the first two
bytes are the big-endian code and the rest is lossily decoded as the reason. -/
def MessageAssembler.parseClosePayload (payload : List Nat) :
    Except Error (Option Nat × Option (List Nat)) :=
  if payload.length < 2 then Except.ok (none, none)
  else
    let code := (payload.getD 0 0) * 256 + payload.getD 1 0
    let reason := if payload.length > 2 then utf8Lossy (payload.drop 2) else []
    Except.ok (some code, some reason)

/-- Embeds MessageAssembler::control_frame_to_message (message.rs lines
400-412); Message::close stores an absent reason as the empty string. -/
def MessageAssembler.controlFrameToMessage (f : Frame) : Except Error Message :=
  match f.opcode with
  | .ping => Except.ok (Message.ping f.payload)
  | .pong => Except.ok (Message.pong f.payload)
  | .close =>
      match MessageAssembler.parseClosePayload f.payload with
      | Except.ok (code, reason) => Except.ok (Message.close code (reason.getD []))
      | Except.error e => Except.error e
  | _ => Except.error (Error.protocol (ProtocolError.invalidFrame
      "Unexpected control frame type"))

/-- Embeds MessageAssembler::assemble_complete_message (message.rs lines
431-447): Text payloads are validated with String::from_utf8, Binary payloads
pass through, all other opcodes are protocol errors. -/
def MessageAssembler.assembleCompleteMessage (st : MessageAssembler) : Except Error Message :=
  match st.opcode with
  | none => Except.error (Error.protocol (ProtocolError.invalidFrame "No opcode set"))
  | some Opcode.text =>
      if validUtf8 st.buffer then Except.ok (Message.text st.buffer)
      else Except.error Error.invalidUtf8
  | some Opcode.binary => Except.ok (Message.binary st.buffer)
  | some _ => Except.error (Error.protocol (ProtocolError.invalidFrame
      "Unexpected opcode for data frame"))

/-- State of a MessageAssembler after reset (message.rs lines 450-454). -/
def MessageAssembler.resetState : MessageAssembler :=
  { buffer := [], opcode := none, assembling := false }

/-- Embeds MessageAssembler::feed_frame (message.rs lines 356-397). The pair
returned holds the Rust return value and the assembler state after the call;
on the error paths reset() is never reached, so the extended buffer survives. -/
def MessageAssembler.feedFrame (st : MessageAssembler) (f : Frame) :
    Except Error (Option Message) × MessageAssembler :=
  if f.opcode.isControl then
    match MessageAssembler.controlFrameToMessage f with
    | Except.ok m => (Except.ok (some m), st)
    | Except.error e => (Except.error e, st)
  else if !f.fin then
    if !st.assembling then
      (Except.ok none,
       { buffer := st.buffer ++ f.payload, opcode := some f.opcode, assembling := true })
    else if f.opcode != Opcode.continuation then
      (Except.error (Error.protocol (ProtocolError.invalidFrame
        "Expected continuation frame in fragmented message")), st)
    else
      (Except.ok none, { st with buffer := st.buffer ++ f.payload })
  else
    if st.assembling then
      let st1 := { st with buffer := st.buffer ++ f.payload }
      match MessageAssembler.assembleCompleteMessage st1 with
      | Except.ok m => (Except.ok (some m), MessageAssembler.resetState)
      | Except.error e => (Except.error e, st1)
    else
      let st1 := { buffer := f.payload, opcode := some f.opcode,
                   assembling := st.assembling }
      match MessageAssembler.assembleCompleteMessage st1 with
      | Except.ok m => (Except.ok (some m), MessageAssembler.resetState)
      | Except.error e => (Except.error e, st1)

/-- Embeds the connection states of connection.rs (lines 43-53). -/
inductive ConnectionState
  | connecting
  | connected
  | closing
  | closed
deriving DecidableEq, Repr

/-- Position of a state in the Connecting, Connected, Closing, Closed order. -/
def ConnectionState.rank : ConnectionState → Nat
  | .connecting => 0
  | .connected => 1
  | .closing => 2
  | .closed => 3

/-- Embeds the state effect of Connection::close (connection.rs lines 436-440):
the state is assigned Closing unconditionally before the close frame is sent. -/
def Connection.closeTransition (_ : ConnectionState) : ConnectionState :=
  ConnectionState.closing

/-- Embeds the state effect of Connection::set_stream (connection.rs lines
161-164): the state is assigned Connected unconditionally. -/
def Connection.setStreamTransition (_ : ConnectionState) : ConnectionState :=
  ConnectionState.connected

/-- Embeds the message conversion of Connection::next (connection.rs lines
398-412): Text payloads are lossily decoded with String::from_utf8_lossy,
Binary payloads pass through, any other opcode is an error. -/
def Connection.assembleMessage (opcode : Opcode) (buf : List Nat) : Except Error Message :=
  match opcode with
  | .text => Except.ok (Message.text (utf8Lossy buf))
  | .binary => Except.ok (Message.binary buf)
  | _ => Except.error (Error.other "Invalid message opcode")

/-- Embeds the close-frame interpretation of Connection::next (connection.rs
lines 336-356): payloads under two bytes become code 1000 with an empty
reason; otherwise big-endian code and lossily decoded reason. -/
def Connection.parseCloseFrame (payload : List Nat) : Nat × List Nat :=
  (if payload.length ≥ 2 then (payload.getD 0 0) * 256 + payload.getD 1 0 else 1000,
   if payload.length > 2 then utf8Lossy (payload.drop 2) else [])

/-- Embeds the RateLimitConfig struct (rate_limit.rs lines 12-22); the
connection timeout plays no part in the admission checks. -/
structure RateLimitConfig where
  maxRequests : Nat
  window : Nat
  maxConnections : Nat
deriving DecidableEq, Repr

/-- Embeds the RequestCounter struct (rate_limit.rs lines 45-49), with
Instant values modelled as Nat timestamps. -/
structure RequestCounter where
  count : Nat
  windowStart : Nat
deriving DecidableEq, Repr

/-- Embeds the two hash maps of RateLimiter (rate_limit.rs lines 36-42), with
IP addresses modelled as Nat keys. -/
structure RateLimiterState where
  requestCounters : Nat → Option RequestCounter
  connectionCounters : Nat → Option Nat

/-- Point update of a map modelled as a function. -/
def mapInsert {α : Type} (m : Nat → Option α) (k : Nat) (v : α) : Nat → Option α :=
  fun i => if i = k then some v else m i

/-- Embeds RateLimiter::check_request_rate (rate_limit.rs lines 62-84): the
entry is inserted if absent, reset if the window expired, and the count is
incremented exactly when the request is allowed. -/
def RateLimiter.checkRequestRate (cfg : RateLimitConfig) (st : RateLimiterState)
    (now ip : Nat) : Bool × RateLimiterState :=
  let counter0 := (st.requestCounters ip).getD { count := 0, windowStart := now }
  let counter1 := if now - counter0.windowStart ≥ cfg.window then
      { count := 0, windowStart := now }
    else counter0
  if counter1.count ≥ cfg.maxRequests then
    (false, { st with requestCounters := mapInsert st.requestCounters ip counter1 })
  else
    let counter2 : RequestCounter := { counter1 with count := counter1.count + 1 }
    (true, { st with requestCounters := mapInsert st.requestCounters ip counter2 })

/-- The request counter of a peer after the window-expiry normalization of
check_request_rate: the stored entry, or a fresh zero entry if absent, reset
when the window expired. -/
def RateLimiter.effectiveCounter (cfg : RateLimitConfig) (st : RateLimiterState)
    (now ip : Nat) : RequestCounter :=
  let counter0 := (st.requestCounters ip).getD { count := 0, windowStart := now }
  if now - counter0.windowStart ≥ cfg.window then { count := 0, windowStart := now }
  else counter0

/-- Embeds RateLimiter::can_connect (rate_limit.rs lines 87-97): the entry is
inserted if absent and incremented exactly when under the cap. -/
def RateLimiter.canConnect (cfg : RateLimitConfig) (st : RateLimiterState)
    (ip : Nat) : Bool × RateLimiterState :=
  let current := (st.connectionCounters ip).getD 0
  if current ≥ cfg.maxConnections then
    (false, { st with connectionCounters := mapInsert st.connectionCounters ip current })
  else
    (true, { st with connectionCounters := mapInsert st.connectionCounters ip (current + 1) })

/-- Embeds RateLimitMiddleware::check_connection (rate_limit.rs lines 167-173):
both sub-checks always run, in sequence, and the result is their conjunction;
no compensation of the request counter ever takes place. -/
def RateLimitMiddleware.checkConnection (cfg : RateLimitConfig) (st : RateLimiterState)
    (now ip : Nat) : Bool × RateLimiterState :=
  let r1 := RateLimiter.checkRequestRate cfg st now ip
  let r2 := RateLimiter.canConnect cfg r1.2 ip
  (r1.1 && r2.1, r2.2)

/-- Sample legal masked frame: a final Text frame carrying the single byte 0,
masked with the key 01 00 00 00. -/
def maskedSample : Frame :=
  { fin := true, rsv1 := false, rsv2 := false, rsv3 := false,
    opcode := Opcode.text, masked := true, mask := some [1, 0, 0, 0], payload := [0] }

/-- Sample wire image of a final Ping frame whose extended payload length is
126, one byte over the control-frame cap. -/
def oversizePingWire : List Nat := 137 :: 126 :: 0 :: 126 :: List.replicate 126 0

/-- Sample final Text frame whose single payload byte 0xFF is not UTF-8. -/
def invalidTextFrame : Frame :=
  { fin := true, rsv1 := false, rsv2 := false, rsv3 := false,
    opcode := Opcode.text, masked := false, mask := none, payload := [255] }

/-- Sample final Continuation frame with an empty payload. -/
def emptyContFrame : Frame :=
  { fin := true, rsv1 := false, rsv2 := false, rsv3 := false,
    opcode := Opcode.continuation, masked := false, mask := none, payload := [] }

/-- Sample final unmasked Text frame carrying the single ASCII byte of A. -/
def textAFrame : Frame :=
  { fin := true, rsv1 := false, rsv2 := false, rsv3 := false,
    opcode := Opcode.text, masked := false, mask := none, payload := [65] }

/-- Sample rate-limiter configuration: 100 requests per 60 unit window, at
most one concurrent connection per peer. -/
def cfgSample : RateLimitConfig := { maxRequests := 100, window := 60, maxConnections := 1 }

/-- Sample rate-limiter state: peer 0 has no request entry and one live
connection. -/
def stSample : RateLimiterState :=
  { requestCounters := fun _ => none,
    connectionCounters := fun i => if i = 0 then some 1 else none }

/-- Every opcode discriminant fits in the low four bits. -/
theorem Opcode.value_lt16 : ∀ op : Opcode, op.value < 16 := by
  intro op; cases op <;> decide

/-- Round trip of the 16-bit big-endian length field. -/
theorem fromBE_toBE16 (L : Nat) (h : L ≤ 65535) : fromBE (toBE16 L) = L := by
  simp [fromBE, toBE16, List.foldl]; omega

/-- Round trip of the 64-bit big-endian length field. -/
theorem fromBE_toBE64 (L : Nat) (h : L < 2 ^ 64) : fromBE (toBE64 L) = L := by
  simp [fromBE, toBE64, List.foldl]; omega

/-- Normal form of the first header byte written by write_to when the three
reserved bits are clear. -/
theorem firstByte_norm : ∀ v < 16, ∀ fin : Bool,
    ((cond fin 1 0) <<< 7) ||| ((cond false 1 0) <<< 6) ||| ((cond false 1 0) <<< 5) |||
      ((cond false 1 0) <<< 4) ||| v = cond fin 128 0 + v := by decide

/-- Normal form of the second header byte for payloads below 126 bytes. -/
theorem secondByte_small : ∀ L ≤ 125, ∀ b : Bool,
    ((cond b 1 0) <<< 7) ||| L = cond b 128 0 + L := by decide

/-- Bit extraction of parse on a first byte with clear reserved bits. -/
theorem header_bits : ∀ v < 16, ∀ fin : Bool,
    (((cond fin 128 0 + v) &&& 128 != 0) = fin) ∧
    (((cond fin 128 0 + v) &&& 64 != 0) = false) ∧
    (((cond fin 128 0 + v) &&& 32 != 0) = false) ∧
    (((cond fin 128 0 + v) &&& 16 != 0) = false) ∧
    ((cond fin 128 0 + v) &&& 15 = v) := by decide

/-- Bit extraction of parse on a second byte with a 7-bit length. -/
theorem len_bits_small : ∀ L ≤ 125, ∀ b : Bool,
    (((cond b 128 0 + L) &&& 128 != 0) = b) ∧ ((cond b 128 0 + L) &&& 127 = L) := by decide

/-- Bit extraction of parse on the second byte for the 126 and 127 length
markers written by write_to. -/
theorem marker_bits : ∀ b : Bool,
    ((((cond b 1 0 <<< 7) ||| 126) &&& 128 != 0) = b) ∧
    (((cond b 1 0 <<< 7) ||| 126) &&& 127 = 126) ∧
    ((((cond b 1 0 <<< 7) ||| 127) &&& 128 != 0) = b) ∧
    (((cond b 1 0 <<< 7) ||| 127) &&& 127 = 127) := by decide

/-- Behavior of finishParse on a buffer holding exactly the remaining header
and the payload, when the step-5 validations pass. -/
theorem finishParse_exact (pre p : List Nat) (comp : Bool) (fin r1 r2 r3 : Bool)
    (op : Opcode) (masked : Bool) (mask : Option (List Nat))
    (hctrl : (op.isControl && !fin) = false)
    (hrsv : ((r1 && !(comp && op.isData)) || r2 || r3) = false) :
    Frame.finishParse (pre ++ p) comp fin r1 r2 r3 op masked mask p.length pre.length =
      (Except.ok { fin := fin, rsv1 := r1, rsv2 := r2, rsv3 := r3, opcode := op,
                   masked := masked, mask := mask,
                   payload := match mask with
                     | some m => maskBytes p m
                     | none => p }, []) := by
  unfold Frame.finishParse
  have hlen : (pre ++ p).length = pre.length + p.length := List.length_append pre p
  have hdrop2 : (pre ++ p).drop (pre.length + p.length) = [] := by
    rw [← hlen]; exact List.drop_length _
  rw [if_neg (by omega)]
  rw [List.drop_left, List.take_length, hdrop2]
  simp only [hctrl, hrsv]
  simp

/-- Behavior of parseAfterLen on an exact unmasked buffer. -/
theorem parseAfterLen_unmasked (pre p : List Nat) (comp : Bool) (fin r1 r2 r3 : Bool)
    (op : Opcode)
    (hctrl : (op.isControl && !fin) = false)
    (hrsv : ((r1 && !(comp && op.isData)) || r2 || r3) = false) :
    Frame.parseAfterLen (pre ++ p) comp fin r1 r2 r3 op false p.length pre.length =
      (Except.ok { fin := fin, rsv1 := r1, rsv2 := r2, rsv3 := r3, opcode := op,
                   masked := false, mask := none, payload := p }, []) := by
  unfold Frame.parseAfterLen
  simp only [Bool.false_eq_true, if_false]
  exact finishParse_exact pre p comp fin r1 r2 r3 op false none hctrl hrsv

/-- Behavior of parseAfterLen on an exact masked buffer carrying a four-byte
key between the header and the payload. -/
theorem parseAfterLen_masked (pre m p : List Nat) (comp : Bool) (fin r1 r2 r3 : Bool)
    (op : Opcode) (hm : m.length = 4)
    (hctrl : (op.isControl && !fin) = false)
    (hrsv : ((r1 && !(comp && op.isData)) || r2 || r3) = false) :
    Frame.parseAfterLen (pre ++ (m ++ p)) comp fin r1 r2 r3 op true p.length pre.length =
      (Except.ok { fin := fin, rsv1 := r1, rsv2 := r2, rsv3 := r3, opcode := op,
                   masked := true, mask := some m, payload := maskBytes p m }, []) := by
  unfold Frame.parseAfterLen
  have hlen : (pre ++ (m ++ p)).length = pre.length + (4 + p.length) := by
    simp [List.length_append, hm]
  simp only [if_true]
  rw [if_neg (by omega)]
  rw [List.drop_left, List.take_left' hm]
  have hassoc : pre ++ (m ++ p) = (pre ++ m) ++ p := (List.append_assoc pre m p).symm
  have hpos : pre.length + 4 = (pre ++ m).length := by simp [List.length_append, hm]
  rw [hassoc, hpos]
  exact finishParse_exact (pre ++ m) p comp fin r1 r2 r3 op true (some m) hctrl hrsv

/-- C1 amended: for every legal frame, parsing the bytes produced by write_to
succeeds, consumes the whole encoding (the buffer comes back empty), and
reconstructs fin, the three reserved bits, the opcode, the masked flag and the
mask key exactly; the payload is reconstructed exactly for unmasked frames,
while for masked frames parse returns the stored payload with the masking XOR
applied once (write_to emits the stored bytes verbatim and parse unmasks). -/
theorem C1_roundtrip_legal (f : Frame) (hf : legalFrame f = true) :
    Frame.parse f.writeTo false = (Except.ok { f with payload := f.parsedPayload }, []) := by
  simp only [legalFrame, Bool.and_eq_true] at hf
  obtain ⟨⟨⟨⟨⟨⟨ha1, ha2⟩, ha3⟩, ha4⟩, ha5⟩, ha6⟩, ha7⟩ := hf
  have hop : Opcode.fromByte f.opcode.value = some f.opcode := eq_of_beq ha1
  have hv : f.opcode.value < 16 := Opcode.value_lt16 f.opcode
  obtain ⟨⟨hr1, hr2⟩, hr3⟩ :
      (f.rsv1 = false ∧ f.rsv2 = false) ∧ f.rsv3 = false := by
    simpa [Bool.not_eq_true'] using ha5
  have hL64 : f.payload.length < 2 ^ 64 := of_decide_eq_true ha7
  have hctrl : (f.opcode.isControl && !f.fin) = false := by
    cases hic : f.opcode.isControl
    · simp
    · rw [hic] at ha4
      simp at ha4
      simp [ha4.1]
  have hrsv : ((false && !((false : Bool) && f.opcode.isData)) || false || false) = false := by
    simp
  rcases hmc : f.mask with _ | m
  · -- unmasked frame
    have hmskd : f.masked = false := by
      have h2 := eq_of_beq ha2
      rw [hmc] at h2
      simpa using h2
    simp only [Frame.parsedPayload, hmc]
    rw [hr1, hr2, hr3, hmskd]
    rcases lt_or_ge f.payload.length 126 with hL | hL
    · -- 7-bit length, unmasked
      have hw : f.writeTo = (cond f.fin 128 0 + f.opcode.value) ::
          (cond f.masked 128 0 + f.payload.length) :: f.payload := by
        simp only [Frame.writeTo, hmc, hr1, hr2, hr3]
        rw [if_pos hL]
        rw [firstByte_norm f.opcode.value hv f.fin]
        rw [secondByte_small f.payload.length (by omega) f.masked]
        simp
      rw [hw, Frame.parse]
      rw [if_neg (by simp)]
      simp only [List.getD_cons_zero, List.getD_cons_succ]
      rw [(header_bits f.opcode.value hv f.fin).1,
          (header_bits f.opcode.value hv f.fin).2.1,
          (header_bits f.opcode.value hv f.fin).2.2.1,
          (header_bits f.opcode.value hv f.fin).2.2.2.1,
          (header_bits f.opcode.value hv f.fin).2.2.2.2,
          hop]
      simp only []
      rw [(len_bits_small f.payload.length (by omega) f.masked).1,
          (len_bits_small f.payload.length (by omega) f.masked).2]
      rw [if_neg (by omega), if_neg (by omega)]
      rw [hmskd]
      exact parseAfterLen_unmasked
        [cond f.fin 128 0 + f.opcode.value, cond false 128 0 + f.payload.length]
        f.payload false f.fin false false false f.opcode hctrl hrsv
    · rcases le_or_lt f.payload.length 65535 with hL2 | hL2
      · -- 16-bit length, unmasked
        have hw : f.writeTo = (cond f.fin 128 0 + f.opcode.value) ::
            ((cond f.masked 1 0 <<< 7) ||| 126) ::
            (f.payload.length / 256 % 256) :: (f.payload.length % 256) :: f.payload := by
          simp only [Frame.writeTo, hmc, hr1, hr2, hr3]
          rw [if_neg (by omega), if_pos hL2]
          rw [firstByte_norm f.opcode.value hv f.fin]
          simp [toBE16]
        rw [hw, Frame.parse]
        rw [if_neg (by simp)]
        simp only [List.getD_cons_zero, List.getD_cons_succ]
        rw [(header_bits f.opcode.value hv f.fin).1,
            (header_bits f.opcode.value hv f.fin).2.1,
            (header_bits f.opcode.value hv f.fin).2.2.1,
            (header_bits f.opcode.value hv f.fin).2.2.2.1,
            (header_bits f.opcode.value hv f.fin).2.2.2.2,
            hop]
        simp only []
        rw [(marker_bits f.masked).1, (marker_bits f.masked).2.1]
        rw [if_pos rfl]
        rw [if_neg (by simp)]
        have hred : fromBE ((((cond f.fin 128 0 + f.opcode.value) ::
            ((cond f.masked 1 0 <<< 7) ||| 126) ::
            (f.payload.length / 256 % 256) :: (f.payload.length % 256) ::
            f.payload).drop 2).take 2) = f.payload.length := by
          show fromBE [f.payload.length / 256 % 256, f.payload.length % 256] =
            f.payload.length
          simp [fromBE]
          omega
        rw [hred, hmskd]
        exact parseAfterLen_unmasked
          [cond f.fin 128 0 + f.opcode.value, (cond false 1 0 <<< 7) ||| 126,
           f.payload.length / 256 % 256, f.payload.length % 256]
          f.payload false f.fin false false false f.opcode hctrl hrsv
      · -- 64-bit length, unmasked
        have hw : f.writeTo = (cond f.fin 128 0 + f.opcode.value) ::
            ((cond f.masked 1 0 <<< 7) ||| 127) ::
            (f.payload.length / 2 ^ 56 % 256) :: (f.payload.length / 2 ^ 48 % 256) ::
            (f.payload.length / 2 ^ 40 % 256) :: (f.payload.length / 2 ^ 32 % 256) ::
            (f.payload.length / 2 ^ 24 % 256) :: (f.payload.length / 2 ^ 16 % 256) ::
            (f.payload.length / 256 % 256) :: (f.payload.length % 256) :: f.payload := by
          simp only [Frame.writeTo, hmc, hr1, hr2, hr3]
          rw [if_neg (by omega), if_neg (by omega)]
          rw [firstByte_norm f.opcode.value hv f.fin]
          simp [toBE64]
        rw [hw, Frame.parse]
        rw [if_neg (by simp)]
        simp only [List.getD_cons_zero, List.getD_cons_succ]
        rw [(header_bits f.opcode.value hv f.fin).1,
            (header_bits f.opcode.value hv f.fin).2.1,
            (header_bits f.opcode.value hv f.fin).2.2.1,
            (header_bits f.opcode.value hv f.fin).2.2.2.1,
            (header_bits f.opcode.value hv f.fin).2.2.2.2,
            hop]
        simp only []
        rw [(marker_bits f.masked).2.2.1, (marker_bits f.masked).2.2.2]
        rw [if_neg (by omega), if_pos rfl]
        rw [if_neg (by simp)]
        have hred : fromBE ((((cond f.fin 128 0 + f.opcode.value) ::
            ((cond f.masked 1 0 <<< 7) ||| 127) ::
            (f.payload.length / 2 ^ 56 % 256) :: (f.payload.length / 2 ^ 48 % 256) ::
            (f.payload.length / 2 ^ 40 % 256) :: (f.payload.length / 2 ^ 32 % 256) ::
            (f.payload.length / 2 ^ 24 % 256) :: (f.payload.length / 2 ^ 16 % 256) ::
            (f.payload.length / 256 % 256) :: (f.payload.length % 256) ::
            f.payload).drop 2).take 8) = f.payload.length := by
          show fromBE [f.payload.length / 2 ^ 56 % 256, f.payload.length / 2 ^ 48 % 256,
            f.payload.length / 2 ^ 40 % 256, f.payload.length / 2 ^ 32 % 256,
            f.payload.length / 2 ^ 24 % 256, f.payload.length / 2 ^ 16 % 256,
            f.payload.length / 256 % 256, f.payload.length % 256] = f.payload.length
          simp [fromBE]
          omega
        rw [hred, hmskd]
        exact parseAfterLen_unmasked
          [cond f.fin 128 0 + f.opcode.value, (cond false 1 0 <<< 7) ||| 127,
           f.payload.length / 2 ^ 56 % 256, f.payload.length / 2 ^ 48 % 256,
           f.payload.length / 2 ^ 40 % 256, f.payload.length / 2 ^ 32 % 256,
           f.payload.length / 2 ^ 24 % 256, f.payload.length / 2 ^ 16 % 256,
           f.payload.length / 256 % 256, f.payload.length % 256]
          f.payload false f.fin false false false f.opcode hctrl hrsv
  · -- masked frame
    have hmskd : f.masked = true := by
      have h2 := eq_of_beq ha2
      rw [hmc] at h2
      simpa using h2
    have hm4 : m.length = 4 := by
      rw [hmc] at ha3
      simp [Bool.and_eq_true] at ha3
      exact ha3.1
    simp only [Frame.parsedPayload, hmc]
    rw [hr1, hr2, hr3, hmskd]
    rcases lt_or_ge f.payload.length 126 with hL | hL
    · -- 7-bit length, masked
      have hw : f.writeTo = (cond f.fin 128 0 + f.opcode.value) ::
          (cond f.masked 128 0 + f.payload.length) :: (m ++ f.payload) := by
        simp only [Frame.writeTo, hmc, hr1, hr2, hr3]
        rw [if_pos hL]
        rw [firstByte_norm f.opcode.value hv f.fin]
        rw [secondByte_small f.payload.length (by omega) f.masked]
        simp
      rw [hw, Frame.parse]
      rw [if_neg (by simp)]
      simp only [List.getD_cons_zero, List.getD_cons_succ]
      rw [(header_bits f.opcode.value hv f.fin).1,
          (header_bits f.opcode.value hv f.fin).2.1,
          (header_bits f.opcode.value hv f.fin).2.2.1,
          (header_bits f.opcode.value hv f.fin).2.2.2.1,
          (header_bits f.opcode.value hv f.fin).2.2.2.2,
          hop]
      simp only []
      rw [(len_bits_small f.payload.length (by omega) f.masked).1,
          (len_bits_small f.payload.length (by omega) f.masked).2]
      rw [if_neg (by omega), if_neg (by omega)]
      rw [hmskd]
      exact parseAfterLen_masked
        [cond f.fin 128 0 + f.opcode.value, cond true 128 0 + f.payload.length]
        m f.payload false f.fin false false false f.opcode hm4 hctrl hrsv
    · rcases le_or_lt f.payload.length 65535 with hL2 | hL2
      · -- 16-bit length, masked
        have hw : f.writeTo = (cond f.fin 128 0 + f.opcode.value) ::
            ((cond f.masked 1 0 <<< 7) ||| 126) ::
            (f.payload.length / 256 % 256) :: (f.payload.length % 256) ::
            (m ++ f.payload) := by
          simp only [Frame.writeTo, hmc, hr1, hr2, hr3]
          rw [if_neg (by omega), if_pos hL2]
          rw [firstByte_norm f.opcode.value hv f.fin]
          simp [toBE16]
        rw [hw, Frame.parse]
        rw [if_neg (by simp)]
        simp only [List.getD_cons_zero, List.getD_cons_succ]
        rw [(header_bits f.opcode.value hv f.fin).1,
            (header_bits f.opcode.value hv f.fin).2.1,
            (header_bits f.opcode.value hv f.fin).2.2.1,
            (header_bits f.opcode.value hv f.fin).2.2.2.1,
            (header_bits f.opcode.value hv f.fin).2.2.2.2,
            hop]
        simp only []
        rw [(marker_bits f.masked).1, (marker_bits f.masked).2.1]
        rw [if_pos rfl]
        rw [if_neg (by simp)]
        have hred : fromBE ((((cond f.fin 128 0 + f.opcode.value) ::
            ((cond f.masked 1 0 <<< 7) ||| 126) ::
            (f.payload.length / 256 % 256) :: (f.payload.length % 256) ::
            (m ++ f.payload)).drop 2).take 2) = f.payload.length := by
          show fromBE [f.payload.length / 256 % 256, f.payload.length % 256] =
            f.payload.length
          simp [fromBE]
          omega
        rw [hred, hmskd]
        exact parseAfterLen_masked
          [cond f.fin 128 0 + f.opcode.value, (cond true 1 0 <<< 7) ||| 126,
           f.payload.length / 256 % 256, f.payload.length % 256]
          m f.payload false f.fin false false false f.opcode hm4 hctrl hrsv
      · -- 64-bit length, masked
        have hw : f.writeTo = (cond f.fin 128 0 + f.opcode.value) ::
            ((cond f.masked 1 0 <<< 7) ||| 127) ::
            (f.payload.length / 2 ^ 56 % 256) :: (f.payload.length / 2 ^ 48 % 256) ::
            (f.payload.length / 2 ^ 40 % 256) :: (f.payload.length / 2 ^ 32 % 256) ::
            (f.payload.length / 2 ^ 24 % 256) :: (f.payload.length / 2 ^ 16 % 256) ::
            (f.payload.length / 256 % 256) :: (f.payload.length % 256) ::
            (m ++ f.payload) := by
          simp only [Frame.writeTo, hmc, hr1, hr2, hr3]
          rw [if_neg (by omega), if_neg (by omega)]
          rw [firstByte_norm f.opcode.value hv f.fin]
          simp [toBE64]
        rw [hw, Frame.parse]
        rw [if_neg (by simp)]
        simp only [List.getD_cons_zero, List.getD_cons_succ]
        rw [(header_bits f.opcode.value hv f.fin).1,
            (header_bits f.opcode.value hv f.fin).2.1,
            (header_bits f.opcode.value hv f.fin).2.2.1,
            (header_bits f.opcode.value hv f.fin).2.2.2.1,
            (header_bits f.opcode.value hv f.fin).2.2.2.2,
            hop]
        simp only []
        rw [(marker_bits f.masked).2.2.1, (marker_bits f.masked).2.2.2]
        rw [if_neg (by omega), if_pos rfl]
        rw [if_neg (by simp)]
        have hred : fromBE ((((cond f.fin 128 0 + f.opcode.value) ::
            ((cond f.masked 1 0 <<< 7) ||| 127) ::
            (f.payload.length / 2 ^ 56 % 256) :: (f.payload.length / 2 ^ 48 % 256) ::
            (f.payload.length / 2 ^ 40 % 256) :: (f.payload.length / 2 ^ 32 % 256) ::
            (f.payload.length / 2 ^ 24 % 256) :: (f.payload.length / 2 ^ 16 % 256) ::
            (f.payload.length / 256 % 256) :: (f.payload.length % 256) ::
            (m ++ f.payload)).drop 2).take 8) = f.payload.length := by
          show fromBE [f.payload.length / 2 ^ 56 % 256, f.payload.length / 2 ^ 48 % 256,
            f.payload.length / 2 ^ 40 % 256, f.payload.length / 2 ^ 32 % 256,
            f.payload.length / 2 ^ 24 % 256, f.payload.length / 2 ^ 16 % 256,
            f.payload.length / 256 % 256, f.payload.length % 256] = f.payload.length
          simp [fromBE]
          omega
        rw [hred, hmskd]
        exact parseAfterLen_masked
          [cond f.fin 128 0 + f.opcode.value, (cond true 1 0 <<< 7) ||| 127,
           f.payload.length / 2 ^ 56 % 256, f.payload.length / 2 ^ 48 % 256,
           f.payload.length / 2 ^ 40 % 256, f.payload.length / 2 ^ 32 % 256,
           f.payload.length / 2 ^ 24 % 256, f.payload.length / 2 ^ 16 % 256,
           f.payload.length / 256 % 256, f.payload.length % 256]
          m f.payload false f.fin false false false f.opcode hm4 hctrl hrsv

/-- C1 counterexample: maskedSample is a legal frame under the section-3
invariants, yet parsing its own encoding does not return it; the payload comes
back with the masking XOR applied once more, so the round trip fails on a
masked frame. -/
theorem C1_masked_roundtrip_cex :
    legalFrame maskedSample = true ∧
    Frame.parse maskedSample.writeTo false =
      (Except.ok { maskedSample with payload := [1] }, []) ∧
    ({ maskedSample with payload := [1] } : Frame) ≠ maskedSample := by decide

/-- C1 witness: the round-trip theorem applied to the concrete legal masked
sample frame. -/
theorem C1_roundtrip_legal_witness :
    legalFrame maskedSample = true ∧
    Frame.parse maskedSample.writeTo false =
      (Except.ok { maskedSample with payload := maskedSample.parsedPayload }, []) :=
  ⟨by decide, C1_roundtrip_legal maskedSample (by decide)⟩

/-- C2: compute_accept_key is exactly the base64 of the SHA-1 of the client
key concatenated with the RFC 6455 magic GUID, and on the RFC 6455 sample
nonce it produces the documented accept value. -/
theorem C2_accept_key :
    (∀ k : String, compute_accept_key k =
      String.mk (base64Encode (sha1 (strBytes k ++ strBytes WEBSOCKET_MAGIC)))) ∧
    compute_accept_key "dGhlIHNhbXBsZSBub25jZQ==" = "s3pPLMBiTxaQ9kYGzzhZRbK+xOo=" :=
  ⟨fun _ => rfl, by decide⟩

/-- C3 counterexample: a final Ping frame with a 126-byte payload, one byte
over the RFC control-frame cap, is parsed successfully by Frame::parse, so
parse does not enforce the control payload bound claimed by the spec. -/
theorem C3_control_oversize_cex :
    Frame.parse oversizePingWire false =
      (Except.ok { fin := true, rsv1 := false, rsv2 := false, rsv3 := false,
                   opcode := Opcode.ping, masked := false, mask := none,
                   payload := List.replicate 126 0 }, []) ∧
    Opcode.ping.isControl = true ∧ 125 < (List.replicate 126 (0 : Nat)).length := by decide

/-- C4 counterexample: on the two-byte buffer 0x83 0x00 the parser reports the
structural error InvalidOpcode 3 and clears its buffer, so the buffer after
the call differs from the buffer before it. -/
theorem C4_parser_clears_buffer_cex :
    FrameParser.tryParseFrame
        { buffer := [131, 0], expectedSize := none, compressionEnabled := false } =
      (some (Except.error (FrameError.invalidOpcode 3)),
       { buffer := [], expectedSize := none, compressionEnabled := false }) ∧
    ([] : List Nat) ≠ [131, 0] := by decide

/-- C5 counterexample: a one-byte Close payload is not reported as a protocol
error; the assembler returns Ok with no code and no reason, and the server
connection path turns it into code 1000 with an empty reason. -/
theorem C5_one_byte_close_cex :
    MessageAssembler.parseClosePayload [3] = Except.ok (none, none) ∧
    Connection.parseCloseFrame [3] = (1000, []) := by decide

/-- C6 counterexample: the byte 0xFF is not valid UTF-8, yet the server
connection Text path yields a Text message built by lossy decoding instead of
reporting a 1007 protocol error. -/
theorem C6_lossy_text_cex :
    validUtf8 [255] = false ∧
    Connection.assembleMessage Opcode.text [255] =
      Except.ok (Message.text [239, 191, 189]) := by decide

/-- C7 counterexample: a non-final Continuation frame fed while no reassembly
is in progress is accepted with Ok none and silently starts a reassembly,
instead of the protocol error the claim requires. -/
theorem C7_nonfinal_continuation_cex :
    MessageAssembler.feedFrame { buffer := [], opcode := none, assembling := false }
      { fin := false, rsv1 := false, rsv2 := false, rsv3 := false,
        opcode := Opcode.continuation, masked := false, mask := none, payload := [7] } =
      (Except.ok none,
       { buffer := [7], opcode := some Opcode.continuation, assembling := true }) := by decide

/-- C8 counterexample: close() on a Closed connection assigns Closing, a state
of strictly smaller rank, and set_stream on a Closed connection assigns
Connected, so the observed state sequence can revisit earlier states. -/
theorem C8_close_from_closed_cex :
    Connection.closeTransition ConnectionState.closed = ConnectionState.closing ∧
    (Connection.closeTransition ConnectionState.closed).rank < ConnectionState.closed.rank ∧
    Connection.setStreamTransition ConnectionState.closed = ConnectionState.connected := by
  decide

/-- C8 amended: the state effects of Connection::close and
Connection::set_stream are unconditional assignments: close always moves the
connection to Closing and set_stream always moves it to Connected, whatever
the previous state, so monotonicity does not hold. -/
theorem C8_transitions_unconditional :
    ∀ s : ConnectionState, Connection.closeTransition s = ConnectionState.closing ∧
      Connection.setStreamTransition s = ConnectionState.connected :=
  fun _ => ⟨rfl, rfl⟩

/-- C9 counterexample: with peer 0 at its concurrent-connection cap and no
request entry, check_connection rejects but leaves the request counter at 1,
not at its prior value; the increment done by check_request_rate survives. -/
theorem C9_budget_consumed_cex :
    (RateLimitMiddleware.checkConnection cfgSample stSample 0 0).1 = false ∧
    (RateLimitMiddleware.checkConnection cfgSample stSample 0 0).2.requestCounters 0 =
      some { count := 1, windowStart := 0 } ∧
    stSample.requestCounters 0 = none := by decide

/-- C10 counterexample: after an invalid-UTF-8 error leaves the byte 0xFF
buffered, feeding a final Continuation frame with an empty payload returns an
error yet leaves the buffer empty: the buffer was emptied by a call that
neither yielded a message nor was an explicit clear. -/
theorem C10_empty_payload_empties_cex :
    MessageAssembler.feedFrame MessageAssembler.resetState invalidTextFrame =
      (Except.error Error.invalidUtf8,
       { buffer := [255], opcode := some Opcode.text, assembling := false }) ∧
    MessageAssembler.feedFrame
        { buffer := [255], opcode := some Opcode.text, assembling := false }
        emptyContFrame =
      (Except.error (Error.protocol (ProtocolError.invalidFrame
        "Unexpected opcode for data frame")),
       { buffer := [], opcode := some Opcode.continuation, assembling := false }) := by decide

theorem Opcode.fromByte_value (b : Nat) (op : Opcode) (h : Opcode.fromByte b = some op) :
    Opcode.fromByte op.value = some op := by
  unfold Opcode.fromByte at h
  split at h <;> cases h <;> rfl

theorem finishParse_ok_inv (buf : List Nat) (comp : Bool) (fin r1 r2 r3 : Bool)
    (op : Opcode) (masked : Bool) (mask : Option (List Nat)) (pl pos : Nat)
    (f : Frame) (rest : List Nat)
    (h : Frame.finishParse buf comp fin r1 r2 r3 op masked mask pl pos = (Except.ok f, rest)) :
    f.fin = fin ∧ f.rsv1 = r1 ∧ f.rsv2 = r2 ∧ f.rsv3 = r3 ∧ f.opcode = op ∧
    (op.isControl && !fin) = false ∧
    ((r1 && !(comp && op.isData)) || r2 || r3) = false := by
  simp only [Frame.finishParse] at h
  split at h
  · simp at h
  · split at h
    next hctrl => simp at h
    next hctrl =>
      split at h
      next hrsv => simp at h
      next hrsv =>
        have hf := congrArg Prod.fst h
        simp at hf
        subst hf
        exact ⟨rfl, rfl, rfl, rfl, rfl, by simpa using hctrl, by simpa using hrsv⟩

theorem parseAfterLen_ok_inv (buf : List Nat) (comp : Bool) (fin r1 r2 r3 : Bool)
    (op : Opcode) (masked : Bool) (pl pos : Nat) (f : Frame) (rest : List Nat)
    (h : Frame.parseAfterLen buf comp fin r1 r2 r3 op masked pl pos = (Except.ok f, rest)) :
    f.fin = fin ∧ f.rsv1 = r1 ∧ f.rsv2 = r2 ∧ f.rsv3 = r3 ∧ f.opcode = op ∧
    (op.isControl && !fin) = false ∧
    ((r1 && !(comp && op.isData)) || r2 || r3) = false := by
  simp only [Frame.parseAfterLen] at h
  split at h
  · split at h
    · simp at h
    · exact finishParse_ok_inv _ _ _ _ _ _ _ _ _ _ _ _ _ h
  · exact finishParse_ok_inv _ _ _ _ _ _ _ _ _ _ _ _ _ h


/-- C3 amended: whenever Frame::parse returns a frame, the opcode decodes to a
known variant, control opcodes imply fin, rsv2 and rsv3 are clear, and rsv1 is
set only when compression is negotiated and the opcode is a data opcode; parse
performs no control-payload cap and no max_frame_size check, so success does
not bound the payload length. -/
theorem C3_parse_ok_validations (buf : List Nat) (comp : Bool) (f : Frame) (rest : List Nat)
    (h : Frame.parse buf comp = (Except.ok f, rest)) :
    Opcode.fromByte f.opcode.value = some f.opcode ∧
    (f.opcode.isControl = true → f.fin = true) ∧
    f.rsv2 = false ∧ f.rsv3 = false ∧
    (f.rsv1 = true → comp = true ∧ f.opcode.isData = true) := by
  simp only [Frame.parse] at h
  split at h
  · simp at h
  · split at h
    · simp at h
    next op hfb =>
      have main : f.fin = (buf.getD 0 0 &&& 128 != 0) ∧
          f.rsv1 = (buf.getD 0 0 &&& 64 != 0) ∧ f.rsv2 = (buf.getD 0 0 &&& 32 != 0) ∧
          f.rsv3 = (buf.getD 0 0 &&& 16 != 0) ∧ f.opcode = op ∧
          (op.isControl && !(buf.getD 0 0 &&& 128 != 0)) = false ∧
          (((buf.getD 0 0 &&& 64 != 0) && !(comp && op.isData)) ||
            (buf.getD 0 0 &&& 32 != 0) || (buf.getD 0 0 &&& 16 != 0)) = false := by
        split at h
        · split at h
          · simp at h
          · exact parseAfterLen_ok_inv _ _ _ _ _ _ _ _ _ _ _ _ h
        · split at h
          · split at h
            · simp at h
            · exact parseAfterLen_ok_inv _ _ _ _ _ _ _ _ _ _ _ _ h
          · exact parseAfterLen_ok_inv _ _ _ _ _ _ _ _ _ _ _ _ h
      obtain ⟨hfin, hv1, hv2, hv3, hopf, hc, hb⟩ := main
      rw [← hfin] at hc
      rw [← hv1, ← hv2, ← hv3] at hb
      rw [Bool.or_eq_false_iff, Bool.or_eq_false_iff] at hb
      obtain ⟨⟨hb1, hb2⟩, hb3⟩ := hb
      refine ⟨?_, ?_, hb2, hb3, ?_⟩
      · rw [hopf]; exact Opcode.fromByte_value _ _ hfb
      · intro hic
        rw [hopf] at hic
        rw [hic] at hc
        simp at hc
        exact hc
      · intro hr1
        rw [hr1] at hb1
        simp at hb1
        rw [hopf]
        exact hb1

/-- C4 amended: when incremental parsing fails with a structural error (any
FrameError other than InsufficientData), the parser reports that error and
clears its entire buffer, so the buffered bytes are consumed rather than
preserved. -/
theorem C4_structural_error_clears (ps : FrameParser) (e : FrameError)
    (he : (Frame.parse ps.buffer ps.compressionEnabled).1 = Except.error e)
    (hs : e.isInsufficientData = false) :
    FrameParser.tryParseFrame ps =
      (some (Except.error e), { ps with buffer := [] }) := by
  unfold FrameParser.tryParseFrame
  simp only [he, hs]
  simp

/-- C5 amended: a Close payload of fewer than two bytes (zero or one byte)
yields no code and no reason without any error; a payload of at least two
bytes yields the big-endian code of the first two bytes and the remainder
decoded lossily as the reason (invalid UTF-8 is replaced, never reported);
the server connection maps short payloads to code 1000 with an empty reason. -/
theorem C5_close_payload_behavior :
    (∀ p : List Nat, p.length < 2 →
      MessageAssembler.parseClosePayload p = Except.ok (none, none)) ∧
    (∀ p : List Nat, 2 ≤ p.length →
      MessageAssembler.parseClosePayload p =
        Except.ok (some ((p.getD 0 0) * 256 + p.getD 1 0), some (utf8Lossy (p.drop 2)))) ∧
    (∀ p : List Nat, Connection.parseCloseFrame p =
      (if 2 ≤ p.length then (p.getD 0 0) * 256 + p.getD 1 0 else 1000,
       utf8Lossy (p.drop 2))) := by
  refine ⟨?_, ?_, ?_⟩
  · intro p hp
    unfold MessageAssembler.parseClosePayload
    rw [if_pos hp]
  · intro p hp
    unfold MessageAssembler.parseClosePayload
    rw [if_neg (by omega)]
    by_cases h3 : p.length > 2
    · simp [h3]
    · have hd : p.drop 2 = [] := List.drop_eq_nil_of_le (by omega)
      simp [h3, hd, utf8Lossy]
  · intro p
    unfold Connection.parseCloseFrame
    by_cases h2 : 2 ≤ p.length
    · by_cases h3 : p.length > 2
      · simp [h2, h3]
      · have hd : p.drop 2 = [] := List.drop_eq_nil_of_le (by omega)
        simp [h2, h3, hd, utf8Lossy]
    · have hd : p.drop 2 = [] := List.drop_eq_nil_of_le (by omega)
      simp [h2, show ¬(p.length > 2) by omega, hd, utf8Lossy]

theorem parseClosePayload_ok (p : List Nat) :
    ∃ r, MessageAssembler.parseClosePayload p = Except.ok r := by
  unfold MessageAssembler.parseClosePayload
  split <;> exact ⟨_, rfl⟩

theorem controlFrameToMessage_not_text (f : Frame) (m : Message)
    (h : MessageAssembler.controlFrameToMessage f = Except.ok m) (bs : List Nat) :
    m ≠ Message.text bs := by
  unfold MessageAssembler.controlFrameToMessage at h
  split at h
  · cases h; simp
  · cases h; simp
  · split at h
    next code reason hm => cases h; simp
    next e hm => simp at h
  · simp at h

theorem controlFrameToMessage_no_utf8_error (f : Frame) (e : Error)
    (h : MessageAssembler.controlFrameToMessage f = Except.error e) :
    e ≠ Error.invalidUtf8 := by
  unfold MessageAssembler.controlFrameToMessage at h
  split at h
  · simp at h
  · simp at h
  · split at h
    next code reason hm => simp at h
    next e2 hm =>
      obtain ⟨r, hr⟩ := parseClosePayload_ok f.payload
      rw [hr] at hm
      simp at hm
  · cases h; simp

theorem assembleCompleteMessage_text (st : MessageAssembler) (bs : List Nat)
    (h : MessageAssembler.assembleCompleteMessage st = Except.ok (Message.text bs)) :
    validUtf8 bs = true := by
  unfold MessageAssembler.assembleCompleteMessage at h
  split at h
  · simp at h
  · split at h
    next hval =>
      simp at h
      subst h
      exact hval
    next hval => simp at h
  · simp at h
  · simp at h

theorem assembleCompleteMessage_utf8_error (st : MessageAssembler)
    (h : MessageAssembler.assembleCompleteMessage st = Except.error Error.invalidUtf8) :
    validUtf8 st.buffer = false := by
  unfold MessageAssembler.assembleCompleteMessage at h
  split at h
  · simp at h
  · split at h
    next hval => simp at h
    next hval => simpa using hval
  · simp at h
  · simp at h

theorem validUtf8_false_nonempty (l : List Nat) (h : validUtf8 l = false) :
    0 < l.length := by
  cases l with
  | nil =>
      have hn : validUtf8 [] = true := rfl
      rw [hn] at h
      cases h
  | cons b t => simp

theorem Opcode.isData_not_control (op : Opcode) (h : op.isData = true) :
    op.isControl = false := by
  cases op <;> simp_all [Opcode.isData, Opcode.isControl]


/-- C6 amended: every Text message yielded by MessageAssembler::feed_frame
has a payload validated as UTF-8 (invalid payloads are reported as
Error::InvalidUtf8 instead), but the server connection Text path decodes the
payload lossily with String::from_utf8_lossy and never reports a 1007
protocol error. -/
theorem C6_text_utf8_validation :
    (∀ (st : MessageAssembler) (f : Frame) (bs : List Nat) (st' : MessageAssembler),
      MessageAssembler.feedFrame st f = (Except.ok (some (Message.text bs)), st') →
      validUtf8 bs = true) ∧
    (∀ bs : List Nat, Connection.assembleMessage Opcode.text bs =
      Except.ok (Message.text (utf8Lossy bs))) := by
  constructor
  · intro st f bs st' h
    simp only [MessageAssembler.feedFrame] at h
    split at h
    · split at h
      next m hm =>
        have h1 := congrArg Prod.fst h
        simp at h1
        exact absurd h1 (controlFrameToMessage_not_text f m hm bs)
      next e he => simp at h
    · split at h
      · split at h
        · simp at h
        · split at h
          · simp at h
          · simp at h
      · split at h
        · split at h
          next m hm =>
            have h1 := congrArg Prod.fst h
            simp at h1
            subst h1
            exact assembleCompleteMessage_text _ _ hm
          next e he => simp at h
        · split at h
          next m hm =>
            have h1 := congrArg Prod.fst h
            simp at h1
            subst h1
            exact assembleCompleteMessage_text _ _ hm
          next e he => simp at h
  · intro bs
    rfl

/-- C7 amended: a final Continuation frame fed while no reassembly is in
progress produces a protocol error and yields no message, but a non-final
Continuation frame in the same situation is accepted with Ok none and starts
a reassembly tagged with the Continuation opcode. -/
theorem C7_continuation_when_idle (st : MessageAssembler) (f : Frame)
    (hidle : st.assembling = false) (hop : f.opcode = Opcode.continuation) :
    (f.fin = true →
      MessageAssembler.feedFrame st f =
        (Except.error (Error.protocol (ProtocolError.invalidFrame
          "Unexpected opcode for data frame")),
         { buffer := f.payload, opcode := some Opcode.continuation, assembling := false })) ∧
    (f.fin = false →
      MessageAssembler.feedFrame st f =
        (Except.ok none,
         { buffer := st.buffer ++ f.payload, opcode := some Opcode.continuation,
           assembling := true })) := by
  constructor
  · intro hfin
    simp only [MessageAssembler.feedFrame, hop, hidle, hfin]
    simp [MessageAssembler.assembleCompleteMessage, Opcode.isControl, hidle]
  · intro hfin
    simp only [MessageAssembler.feedFrame, hop, hidle, hfin]
    simp [Opcode.isControl]


/-- C10 amended: an invalid-UTF-8 error from feed_frame leaves a nonempty
buffer; a non-final data frame fed while idle appends its payload after any
leftover bytes; and an error raised while a reassembly was in progress leaves
the buffer either untouched or extended by the payload of the erroring frame.
A final frame fed while idle, however, first overwrites the buffer with its
own payload, so an empty-payload final frame can empty the buffer even when
the feed returns an error. -/
theorem C10_error_preserves_buffer :
    (∀ (st : MessageAssembler) (f : Frame) (st' : MessageAssembler),
      MessageAssembler.feedFrame st f = (Except.error Error.invalidUtf8, st') →
      0 < st'.buffer.length) ∧
    (∀ (st : MessageAssembler) (f : Frame),
      f.opcode.isData = true → f.fin = false → st.assembling = false →
      MessageAssembler.feedFrame st f =
        (Except.ok none,
         { buffer := st.buffer ++ f.payload, opcode := some f.opcode, assembling := true })) ∧
    (∀ (st : MessageAssembler) (f : Frame) (e : Error) (st' : MessageAssembler),
      st.assembling = true → MessageAssembler.feedFrame st f = (Except.error e, st') →
      st'.buffer = st.buffer ∨ st'.buffer = st.buffer ++ f.payload) := by
  refine ⟨?_, ?_, ?_⟩
  · intro st f st' h
    simp only [MessageAssembler.feedFrame] at h
    split at h
    · split at h
      next m hm => simp at h
      next e he =>
        have h1 := congrArg Prod.fst h
        simp at h1
        subst h1
        exact absurd rfl (controlFrameToMessage_no_utf8_error f _ he)
    · split at h
      · split at h
        · simp at h
        · split at h
          · have h1 := congrArg Prod.fst h
            simp at h1
          · simp at h
      · split at h
        · split at h
          next m hm => simp at h
          next e he =>
            have h1 := congrArg Prod.fst h
            have h2 := congrArg Prod.snd h
            simp at h1 h2
            subst h1
            subst h2
            exact validUtf8_false_nonempty _ (assembleCompleteMessage_utf8_error _ he)
        · split at h
          next m hm => simp at h
          next e he =>
            have h1 := congrArg Prod.fst h
            have h2 := congrArg Prod.snd h
            simp at h1 h2
            subst h1
            subst h2
            exact validUtf8_false_nonempty _ (assembleCompleteMessage_utf8_error _ he)
  · intro st f hd hfin hasm
    simp only [MessageAssembler.feedFrame, Opcode.isData_not_control f.opcode hd, hfin, hasm]
    simp
  · intro st f e st' hasm h
    by_cases hfc : f.opcode.isControl = true
    · simp only [MessageAssembler.feedFrame, hfc, if_true] at h
      split at h
      next m hm => simp at h
      next e2 he =>
        have h2 := congrArg Prod.snd h
        simp at h2
        subst h2
        exact Or.inl rfl
    · by_cases hfin : f.fin = true
      · simp only [MessageAssembler.feedFrame, hfc, hfin, hasm, Bool.not_true,
          Bool.false_eq_true, if_false, if_true] at h
        split at h
        next m hm => simp at h
        next e2 he =>
          have h2 := congrArg Prod.snd h
          simp at h2
          subst h2
          exact Or.inr rfl
      · have hfin2 : f.fin = false := by
          cases hf : f.fin
          · rfl
          · exact absurd hf hfin
        simp only [MessageAssembler.feedFrame, hfc, hfin2, hasm, Bool.not_true,
          Bool.not_false, Bool.false_eq_true, if_false, if_true] at h
        split at h
        · have h2 := congrArg Prod.snd h
          simp at h2
          subst h2
          exact Or.inl rfl
        · simp at h

theorem checkRequestRate_connCounters (cfg : RateLimitConfig) (st : RateLimiterState)
    (now ip : Nat) :
    (RateLimiter.checkRequestRate cfg st now ip).2.connectionCounters =
      st.connectionCounters := by
  simp only [RateLimiter.checkRequestRate]
  split <;> split <;> rfl

theorem canConnect_reqCounters (cfg : RateLimitConfig) (st : RateLimiterState) (ip : Nat) :
    (RateLimiter.canConnect cfg st ip).2.requestCounters = st.requestCounters := by
  simp only [RateLimiter.canConnect]
  split <;> rfl

theorem canConnect_denied (cfg : RateLimitConfig) (st : RateLimiterState) (ip : Nat)
    (h : cfg.maxConnections ≤ (st.connectionCounters ip).getD 0) :
    (RateLimiter.canConnect cfg st ip).1 = false := by
  simp only [RateLimiter.canConnect]
  rw [if_pos h]

theorem checkRequestRate_allowed (cfg : RateLimitConfig) (st : RateLimiterState)
    (now ip : Nat)
    (h : (RateLimiter.effectiveCounter cfg st now ip).count < cfg.maxRequests) :
    (RateLimiter.checkRequestRate cfg st now ip).2.requestCounters ip =
      some { count := (RateLimiter.effectiveCounter cfg st now ip).count + 1,
             windowStart := (RateLimiter.effectiveCounter cfg st now ip).windowStart } := by
  simp only [RateLimiter.checkRequestRate]
  rw [if_neg (by
    simp only [RateLimiter.effectiveCounter] at h
    omega)]
  simp [mapInsert, RateLimiter.effectiveCounter]

/-- C9 amended: when the peer is at or above the concurrent-connection cap,
check_connection rejects, but the request-counter map is exactly the one left
by check_request_rate: the increment performed when the request-rate check
allows is never undone, so a rejection does consume request budget. -/
theorem C9_rejection_keeps_increment (cfg : RateLimitConfig) (st : RateLimiterState)
    (now ip : Nat)
    (hconn : cfg.maxConnections ≤ (st.connectionCounters ip).getD 0) :
    (RateLimitMiddleware.checkConnection cfg st now ip).1 = false ∧
    (RateLimitMiddleware.checkConnection cfg st now ip).2.requestCounters ip =
      (RateLimiter.checkRequestRate cfg st now ip).2.requestCounters ip ∧
    ((RateLimiter.effectiveCounter cfg st now ip).count < cfg.maxRequests →
      (RateLimitMiddleware.checkConnection cfg st now ip).2.requestCounters ip =
        some { count := (RateLimiter.effectiveCounter cfg st now ip).count + 1,
               windowStart := (RateLimiter.effectiveCounter cfg st now ip).windowStart }) := by
  have hconn2 : cfg.maxConnections ≤
      ((RateLimiter.checkRequestRate cfg st now ip).2.connectionCounters ip).getD 0 := by
    rw [checkRequestRate_connCounters]
    exact hconn
  refine ⟨?_, ?_, ?_⟩
  · simp only [RateLimitMiddleware.checkConnection]
    rw [canConnect_denied _ _ _ hconn2]
    simp
  · simp only [RateLimitMiddleware.checkConnection]
    rw [canConnect_reqCounters]
  · intro hcount
    simp only [RateLimitMiddleware.checkConnection]
    rw [canConnect_reqCounters]
    exact checkRequestRate_allowed cfg st now ip hcount

/-- C3 witness: the validation consequences of a successful parse of the
three-byte text frame 0x81 0x01 0x41. -/
theorem C3_parse_ok_validations_witness :
    Opcode.fromByte textAFrame.opcode.value = some textAFrame.opcode ∧
    (textAFrame.opcode.isControl = true → textAFrame.fin = true) ∧
    textAFrame.rsv2 = false ∧ textAFrame.rsv3 = false ∧
    (textAFrame.rsv1 = true → (false : Bool) = true ∧ textAFrame.opcode.isData = true) :=
  C3_parse_ok_validations [129, 1, 65] false textAFrame [] (by decide)

/-- C4 witness: the buffer-clearing theorem applied to the invalid-opcode
buffer 0x83 0x00. -/
theorem C4_structural_error_clears_witness :
    (Frame.parse ([131, 0] : List Nat) false).1 =
      Except.error (FrameError.invalidOpcode 3) ∧
    FrameParser.tryParseFrame
        { buffer := [131, 0], expectedSize := none, compressionEnabled := false } =
      (some (Except.error (FrameError.invalidOpcode 3)),
       { buffer := [], expectedSize := none, compressionEnabled := false }) :=
  ⟨by decide,
   C4_structural_error_clears
     { buffer := [131, 0], expectedSize := none, compressionEnabled := false }
     (FrameError.invalidOpcode 3) (by decide) (by decide)⟩

/-- C5 witness: the close-payload theorem applied to the four-byte payload
0x03 0xE8 followed by the ASCII bytes of Hi. -/
theorem C5_close_payload_behavior_witness :
    MessageAssembler.parseClosePayload [3, 232, 72, 105] =
      Except.ok (some (([3, 232, 72, 105] : List Nat).getD 0 0 * 256 +
          ([3, 232, 72, 105] : List Nat).getD 1 0),
        some (utf8Lossy (([3, 232, 72, 105] : List Nat).drop 2))) :=
  C5_close_payload_behavior.2.1 [3, 232, 72, 105] (by decide)

/-- C6 witness: the assembler yields Text with the single byte 0x41, and that
payload is valid UTF-8 by the theorem. -/
theorem C6_text_utf8_validation_witness : validUtf8 [65] = true :=
  C6_text_utf8_validation.1 MessageAssembler.resetState textAFrame [65]
    MessageAssembler.resetState (by decide)

/-- C7 witness: the idle-continuation theorem applied to the empty final
Continuation frame fed to a fresh assembler. -/
theorem C7_continuation_when_idle_witness :
    MessageAssembler.feedFrame MessageAssembler.resetState emptyContFrame =
      (Except.error (Error.protocol (ProtocolError.invalidFrame
        "Unexpected opcode for data frame")),
       { buffer := emptyContFrame.payload, opcode := some Opcode.continuation,
         assembling := false }) :=
  (C7_continuation_when_idle MessageAssembler.resetState emptyContFrame rfl rfl).1 rfl

/-- C9 witness: the rejection theorem applied to the sample state where peer 0
is at its concurrent cap. -/
theorem C9_rejection_keeps_increment_witness :
    cfgSample.maxConnections ≤ (stSample.connectionCounters 0).getD 0 ∧
    (RateLimitMiddleware.checkConnection cfgSample stSample 0 0).1 = false :=
  ⟨by decide, (C9_rejection_keeps_increment cfgSample stSample 0 0 (by decide)).1⟩

/-- C10 witness: a non-final Binary frame fed over the leftover byte 0xFF is
appended after it. -/
theorem C10_error_preserves_buffer_witness :
    MessageAssembler.feedFrame
        { buffer := [255], opcode := some Opcode.text, assembling := false }
        { fin := false, rsv1 := false, rsv2 := false, rsv3 := false,
          opcode := Opcode.binary, masked := false, mask := none, payload := [1, 2] } =
      (Except.ok none,
       { buffer := [255, 1, 2], opcode := some Opcode.binary, assembling := true }) :=
  C10_error_preserves_buffer.2.1
    { buffer := [255], opcode := some Opcode.text, assembling := false }
    { fin := false, rsv1 := false, rsv2 := false, rsv3 := false,
      opcode := Opcode.binary, masked := false, mask := none, payload := [1, 2] }
    rfl rfl rfl

end Aero
